import Mathlib

/-!
Verification development for a hybrid API-traffic anomaly detection service.

The service consists of:
  * four windowed statistical detectors over a Redis-like key-value store
    (request-rate spikes, repetitive requests, collective latency drift,
    error-rate spikes),
  * a simulated autoencoder reconstruction scorer,
  * an aggregation endpoint fusing all detector results into one report,
  * an adaptive manager with a per-endpoint buffering / promotion state
    machine and an online retraining loop.

Python strings are modelled as Lean `String`; Python floats are modelled as
rationals (all constants of the program are decimal literals and the claims
under study concern comparisons and exact arithmetic, not rounding); the
Redis store is modelled as an explicit state record threaded through the
detectors.
-/

/-- Pointwise update of a string-keyed map (models a single-key write to the
key-value store or to a Python dict). -/
def upd {α : Type} (f : String → α) (k : String) (v : α) : String → α :=
  fun q => if q = k then v else f q

/-- Split a character list at every occurrence of the separator, keeping
empty segments (the behaviour of Python `str.split(sep)` for a one-character
separator). -/
def splitChar (sep : Char) : List Char → List (List Char)
  | [] => [[]]
  | x :: xs =>
    let r := splitChar sep xs
    if x = sep then [] :: r
    else
      match r with
      | [] => [[x]]
      | y :: ys => (x :: y) :: ys

/-- Model of Python `s.split(sep)` for a one-character separator. -/
def pySplit (sep : Char) (s : String) : List String :=
  (splitChar sep s.data).map List.asString

/-- Replace every non-overlapping occurrence of the pattern, left to right
(the behaviour of Python `str.replace` for a non-empty pattern).  The fuel
argument only bounds the recursion depth: one unit is spent per removed
character, so fuel equal to the list length never runs out. -/
def replaceListAux (p new : List Char) : Nat → List Char → List Char
  | 0, s => s
  | _ + 1, [] => []
  | fuel + 1, x :: xs =>
    if p ≠ [] ∧ p.isPrefixOf (x :: xs) then
      new ++ replaceListAux p new fuel ((x :: xs).drop p.length)
    else
      x :: replaceListAux p new fuel xs

/-- Replace every non-overlapping occurrence of the pattern, left to
right. -/
def replaceList (p new s : List Char) : List Char :=
  replaceListAux p new s.length s

/-- Model of Python `s.replace(old, new)`. -/
def pyReplace (s old new : String) : String :=
  (replaceList old.data new.data s.data).asString

/-- Model of Python `s.startswith(p)`. -/
def pyStartsWith (p s : String) : Bool :=
  p.data.isPrefixOf s.data

/-- Value of a decimal digit character. -/
def digitVal (c : Char) : Option Nat :=
  if c = '0' then some 0 else if c = '1' then some 1 else if c = '2' then some 2
  else if c = '3' then some 3 else if c = '4' then some 4 else if c = '5' then some 5
  else if c = '6' then some 6 else if c = '7' then some 7 else if c = '8' then some 8
  else if c = '9' then some 9 else none

/-- Parse a non-empty all-digit character list as a natural number. -/
def parseNatDigits (cs : List Char) : Option Nat :=
  if cs = [] then none
  else
    cs.foldl
      (fun acc c =>
        match acc, digitVal c with
        | some n, some d => some (n * 10 + d)
        | _, _ => none)
      (some 0)

/-- Model of Python `int(s)` on an already-stripped token: an optional sign
followed by decimal digits; `none` models the `ValueError` raised on any
other input. -/
def pyInt (s : String) : Option Int :=
  match s.data with
  | [] => none
  | '-' :: rest => (parseNatDigits rest).map (fun n => -(n : Int))
  | '+' :: rest => (parseNatDigits rest).map (fun n => (n : Int))
  | cs => (parseNatDigits cs).map (fun n => (n : Int))

/-- Substring test on character lists. -/
def containsList (p : List Char) : List Char → Bool
  | [] => p.isEmpty
  | x :: xs => p.isPrefixOf (x :: xs) || containsList p xs

/-- Model of the Python substring test `p in s`. -/
def pyIn (p s : String) : Bool :=
  containsList p.data s.data

/-- A UTC instant as the service consumes it.  The Python code derives three
views from a `datetime` value, all produced by the standard library
(external to the core): `epoch` models `ts.timestamp()` (seconds since the
epoch), `minute` models `ts.strftime("%Y-%m-%dT%H:%M")` (the per-minute
bucket label), and `str` models the f-string rendering `f"{ts.timestamp()}"`
of the epoch float.  Python float rendering never produces a colon and is
injective on float values; where a proof needs those facts they appear as
explicit hypotheses. -/
structure Timestamp where
  epoch : ℚ
  minute : String
  str : String
  deriving DecidableEq

/-- The inbound API-call event (the `AnomalyRequest` pydantic model of
`app/models/anomaly.py`, with the field names used by
`app/services/anomalyDetector.py`). -/
structure AnomalyRequest where
  requestId : String
  timestamp : Timestamp
  endpoint : String
  httpMethod : String
  statusCode : Int
  responseTime : ℚ
  authCompanyId : String
  schemaHash : String
  deriving DecidableEq

/-- A single detector finding. -/
structure DetectedAnomaly where
  type : String
  reason : String
  deriving DecidableEq

/-- The aggregated report returned by the predict endpoint. -/
structure AnomalyReport where
  requestId : String
  isAnomaly : Bool
  anomalyScore : ℚ
  detectedAnomalies : List DetectedAnomaly
  deriving DecidableEq

/-- An inbound event before pydantic validation.  Each typed field carries
the result of the standard-library coercion of the raw wire value (for
example `timestampParsed = none` models a timestamp string that
`datetime` parsing rejects); string fields coerce unconditionally. -/
structure RawEvent where
  requestId : String
  timestampParsed : Option Timestamp
  endpoint : String
  httpMethod : String
  statusCodeParsed : Option Int
  responseTimeParsed : Option ℚ
  authCompanyId : String
  schemaHash : String

/-- Pydantic validation of the `AnomalyRequest` model: the model declares
only field types (no value constraints), so validation succeeds exactly when
every typed field coerces, whatever the values are. -/
def validateRequest (e : RawEvent) : Option AnomalyRequest :=
  match e.timestampParsed, e.statusCodeParsed, e.responseTimeParsed with
  | some ts, some sc, some rt =>
    some { requestId := e.requestId, timestamp := ts, endpoint := e.endpoint,
           httpMethod := e.httpMethod, statusCode := sc, responseTime := rt,
           authCompanyId := e.authCompanyId, schemaHash := e.schemaHash }
  | _, _, _ => none

/-- State of the Redis store as used by the detectors: plain counters
(`INCR`), plain sets (`SADD`/`SISMEMBER`), sorted sets (`ZADD`/
`ZREMRANGEBYSCORE`/`ZCARD`) as member-score association lists, bounded
lists (`LPUSH`/`LTRIM`/`LRANGE`), and per-key TTLs (`EXPIRE`). -/
structure Store where
  counters : String → Nat
  sets : String → List String
  zsets : String → List (String × ℚ)
  lists : String → List ℚ
  ttls : String → Option Nat

/-- A store with no keys set. -/
def emptyStore : Store :=
  { counters := fun _ => 0, sets := fun _ => [], zsets := fun _ => [],
    lists := fun _ => [], ttls := fun _ => none }

/-- Redis `ZADD key {member: score}`: insert the member or update its
score. -/
def zadd (zs : List (String × ℚ)) (m : String) (sc : ℚ) : List (String × ℚ) :=
  (m, sc) :: zs.filter (fun p => p.1 != m)

/-- Redis `ZREMRANGEBYSCORE key -inf maxScore`: drop every member whose
score is at most `maxScore`. -/
def zremrangebyscoreUpTo (zs : List (String × ℚ)) (maxScore : ℚ) : List (String × ℚ) :=
  zs.filter (fun p => decide (maxScore < p.2))

/-- Redis `ZCARD`: the number of distinct members. -/
def zcard (zs : List (String × ℚ)) : Nat :=
  ((zs.map Prod.fst).dedup).length

/-- The simulated autoencoder scorer of
`app/services/anomalyDetector.py::getAutoEncoderReconstructionError`:
response times above 50 ms map to `0.9 + (rt - 50) / 100`; otherwise an
unseen schema hash is added to the per-endpoint schema set and scores 0.85,
and a seen hash scores 0.1. -/
def getAutoEncoderReconstructionError (r : AnomalyRequest) (s : Store) : ℚ × Store :=
  if 50 < r.responseTime then
    (0.9 + (r.responseTime - 50) / 100, s)
  else
    let schemaKey := "schema_hashes:" ++ r.endpoint
    if r.schemaHash ∉ s.sets schemaKey then
      (0.85, { s with sets := upd s.sets schemaKey (r.schemaHash :: s.sets schemaKey) })
    else
      (0.1, s)

/-- The rate detector of
`app/services/anomalyDetector.py::checkSuddenSpikesInRequests`: increment
the per-endpoint per-minute counter (setting a 60 s TTL on first
increment) and fire exactly when the post-increment count strictly exceeds
the threshold of 10. -/
def checkSuddenSpikesInRequests (r : AnomalyRequest) (s : Store) :
    Option DetectedAnomaly × Store :=
  let timeWindowSeconds : Nat := 60
  let requestRateThreshold : Nat := 10
  let currentMinute := r.timestamp.minute
  let rateKey := "rate:" ++ r.endpoint ++ ":" ++ currentMinute
  let currentRate := s.counters rateKey + 1
  let s1 : Store := { s with counters := upd s.counters rateKey currentRate }
  let s2 : Store :=
    if currentRate = 1 then { s1 with ttls := upd s1.ttls rateKey (some timeWindowSeconds) }
    else s1
  (if requestRateThreshold < currentRate then
      some { type := "INCREASED_REQUEST_RATE",
             reason := "Request rate of " ++ toString currentRate ++
               " in the last minute exceeds threshold of " ++
               toString requestRateThreshold ++ " for endpoint " ++ r.endpoint ++ "." }
    else none, s2)

/-- The sorted-set member used by the repetitive-request detector: the
rendered timestamp combined with the request id
(`f"{anomalyTimestamp}:{anomalyRequest.requestId}"`). -/
def repetitiveMember (ts : Timestamp) (requestId : String) : String :=
  ts.str ++ ":" ++ requestId

/-- The repetitive-request detector of
`app/services/anomalyDetector.py::checkRepetitiveRequestsByUsers`: add the
(timestamp, request id) member scored by the timestamp to the
per-(client, endpoint) sorted set, prune members scored at most
`now - 60`, read the cardinality, refresh the TTL, and fire exactly when
the cardinality strictly exceeds 2. -/
def checkRepetitiveRequestsByUsers (r : AnomalyRequest) (s : Store) :
    Option DetectedAnomaly × Store :=
  let timeWindowSeconds : Nat := 60
  let requestCountThreshold : Nat := 2
  let key := "repetitive:" ++ r.authCompanyId ++ ":" ++ r.endpoint
  let anomalyTimestamp := r.timestamp.epoch
  let z1 := zadd (s.zsets key) (repetitiveMember r.timestamp r.requestId) anomalyTimestamp
  let z2 := zremrangebyscoreUpTo z1 (anomalyTimestamp - timeWindowSeconds)
  let recentRequestsCount := zcard z2
  let s1 : Store :=
    { s with zsets := upd s.zsets key z2,
             ttls := upd s.ttls key (some (timeWindowSeconds + 5)) }
  (if requestCountThreshold < recentRequestsCount then
      some { type := "REPETITIVE_REQUEST",
             reason := "Client IP " ++ r.authCompanyId ++ " made " ++
               toString recentRequestsCount ++ " requests to " ++ r.endpoint ++
               " in the last " ++ toString timeWindowSeconds ++ " seconds." }
    else none, s1)

/-- The collective latency detector of
`app/services/anomalyDetector.py::checkDelayResponseSpikes`: push the
response time onto the front of the per-endpoint list, trim the list to
the most recent 100 entries, suppress any result while the window holds
fewer than 100 entries, and otherwise fire exactly when the arithmetic
mean of the window strictly exceeds 150 ms. -/
def checkDelayResponseSpikes (r : AnomalyRequest) (s : Store) :
    Option DetectedAnomaly × Store :=
  let requestWindowSize : Nat := 100
  let latencyThreshold : ℚ := 150
  let key := "latency_window:" ++ r.endpoint
  let pushed := r.responseTime :: s.lists key
  let trimmed := pushed.take requestWindowSize
  let s1 : Store := { s with lists := upd s.lists key trimmed }
  if trimmed.length < requestWindowSize then (none, s1)
  else
    let latencies := trimmed
    let totalLatency := latencies.foldl (· + ·) 0
    let averageLatency := totalLatency / (latencies.length : ℚ)
    (if latencyThreshold < averageLatency then
        some { type := "COLLECTIVE_LATENCY_SPIKE",
               reason := "Average response time for " ++ r.endpoint ++ " is " ++
                 toString averageLatency ++ "ms, exceeding the threshold of " ++
                 toString latencyThreshold ++ "ms." }
      else none, s1)

/-- The error-rate detector of
`app/services/anomalyDetector.py::checkErrorRateSpike`: a no-op below
status 400; a 4xx status increments the per-endpoint per-minute
client-error counter (TTL on first increment) and fires above 10; a 5xx
status does the same with the server-error counter and threshold 5. -/
def checkErrorRateSpike (r : AnomalyRequest) (s : Store) :
    List DetectedAnomaly × Store :=
  if r.statusCode < 400 then ([], s)
  else
    let timeWindowSeconds : Nat := 60
    let currentMinute := r.timestamp.minute
    let clientPart : List DetectedAnomaly × Store :=
      if 400 ≤ r.statusCode ∧ r.statusCode < 500 then
        let clientErrorThreshold : Nat := 10
        let clientRateKey := "client_error_rate:" ++ r.endpoint ++ ":" ++ currentMinute
        let currentClientErrorRate := s.counters clientRateKey + 1
        let t1 : Store := { s with counters := upd s.counters clientRateKey currentClientErrorRate }
        let t2 : Store :=
          if currentClientErrorRate = 1 then
            { t1 with ttls := upd t1.ttls clientRateKey (some timeWindowSeconds) }
          else t1
        (if clientErrorThreshold < currentClientErrorRate then
            [{ type := "INCREASED_CLIENT_ERROR_RATE",
               reason := "Client error rate (4xx) of " ++ toString currentClientErrorRate ++
                 " in the last minute exceeds threshold of " ++
                 toString clientErrorThreshold ++ " for endpoint " ++ r.endpoint ++ "." }]
          else [], t2)
      else ([], s)
    let s1 := clientPart.2
    let serverPart : List DetectedAnomaly × Store :=
      if 500 ≤ r.statusCode ∧ r.statusCode < 600 then
        let serverErrorThreshold : Nat := 5
        let serverRateKey := "server_error_rate:" ++ r.endpoint ++ ":" ++ currentMinute
        let currentServerErrorRate := s1.counters serverRateKey + 1
        let t1 : Store := { s1 with counters := upd s1.counters serverRateKey currentServerErrorRate }
        let t2 : Store :=
          if currentServerErrorRate = 1 then
            { t1 with ttls := upd t1.ttls serverRateKey (some timeWindowSeconds) }
          else t1
        (if serverErrorThreshold < currentServerErrorRate then
            [{ type := "INCREASED_SERVER_ERROR_RATE",
               reason := "Server error rate (5xx) of " ++ toString currentServerErrorRate ++
                 " in the last minute exceeds threshold of " ++
                 toString serverErrorThreshold ++ " for endpoint " ++ r.endpoint ++ "." }]
          else [], t2)
      else ([], s1)
    (clientPart.1 ++ serverPart.1, serverPart.2)

/-- Pure fusion logic of `app/api/v1/endpoints.py::predict_anomaly`: given
the reconstruction score and the result of each detector in the order the
endpoint runs them, collect the anomalies (appending a reconstruction
anomaly above 0.8) while raising the running score to each fired detector
severity (0.9 rate, 0.95 repetitive, 0.85 collective latency, 0.98 for a
server-error type and 0.9 for other error types), and build the report
with the score capped at 1.0 and `isAnomaly` set iff any anomaly was
collected. -/
def fuseReport (r : AnomalyRequest) (reconstructionError : ℚ)
    (rateAnomaly repetitiveAnomaly collectiveLatencyAnomaly : Option DetectedAnomaly)
    (errorAnomalies : List DetectedAnomaly) : AnomalyReport :=
  let a1 : List DetectedAnomaly :=
    if 0.8 < reconstructionError then
      [{ type := "LATENCY_SPIKE_OR_NEW_SCHEMA",
         reason := "High reconstruction error (" ++ toString reconstructionError ++
           ") from model. Response time: " ++ toString r.responseTime ++ "ms." }]
    else []
  let a2 := a1 ++ rateAnomaly.toList
  let score2 :=
    match rateAnomaly with
    | some _ => max reconstructionError 0.9
    | none => reconstructionError
  let a3 := a2 ++ repetitiveAnomaly.toList
  let score3 :=
    match repetitiveAnomaly with
    | some _ => max score2 0.95
    | none => score2
  let a4 := a3 ++ collectiveLatencyAnomaly.toList
  let score4 :=
    match collectiveLatencyAnomaly with
    | some _ => max score3 0.85
    | none => score3
  let a5 := a4 ++ errorAnomalies
  let score5 :=
    errorAnomalies.foldl
      (fun acc a => max acc (if pyIn "SERVER" a.type then 0.98 else 0.9)) score4
  { requestId := r.requestId,
    isAnomaly := decide (0 < a5.length),
    anomalyScore := min 1 score5,
    detectedAnomalies := a5 }

/-- The aggregation endpoint of `app/api/v1/endpoints.py::predict_anomaly`:
score with the reconstruction model, run the four statistical detectors in
order threading the store through them, and fuse all results into the
final report. -/
def predictAnomaly (r : AnomalyRequest) (s : Store) : AnomalyReport × Store :=
  let reconstructionError := (getAutoEncoderReconstructionError r s).1
  let s1 := (getAutoEncoderReconstructionError r s).2
  let rateAnomaly := (checkSuddenSpikesInRequests r s1).1
  let s2 := (checkSuddenSpikesInRequests r s1).2
  let repetitiveAnomaly := (checkRepetitiveRequestsByUsers r s2).1
  let s3 := (checkRepetitiveRequestsByUsers r s2).2
  let collectiveLatencyAnomaly := (checkDelayResponseSpikes r s3).1
  let s4 := (checkDelayResponseSpikes r s3).2
  let errorAnomalies := (checkErrorRateSpike r s4).1
  let s5 := (checkErrorRateSpike r s4).2
  (fuseReport r reconstructionError rateAnomaly repetitiveAnomaly
     collectiveLatencyAnomaly errorAnomalies, s5)

/-- Result dictionary returned by `handle_incoming_log` on the normal
path. -/
structure HandleResult where
  log : String
  reconError : ℚ
  decision : String
  status : String
  deriving DecidableEq

/-- The mutable state of `AnomalyDetectorManager`
(`app/services/anomalyDetectorManager.py`): whether the model artifact
loaded, the known-endpoint set, the global normal-reference embedding set,
the autoencoder weights, the decision threshold, and the per-endpoint
embedding buffers (a `defaultdict(list)`).  The weight type `W` and
embedding type `E` are abstract: the torch autoencoder and the transformer
embedder are external collaborators consumed through the capabilities
passed to `handleIncomingLog`. -/
structure ManagerState (W E : Type) where
  aeLoaded : Bool
  dynamicKnownEndpoints : List String
  normals : List E
  weights : W
  threshold : ℚ
  newEndpointBuffer : String → List E

/-- Endpoint extraction of `handle_incoming_log`:
`text.split(" ")[0].replace("endpoint=", "")`. -/
def parseEndpoint (text : String) : String :=
  pyReplace ((pySplit ' ' text).headD "") "endpoint=" ""

/-- Status extraction of `handle_incoming_log`: the value of the first
`status=` token parsed as an integer, defaulting to 200 when no such token
exists; `none` models the `ValueError` raised by `int` on a malformed
value. -/
def parseStatus (text : String) : Option Int :=
  match (pySplit ' ' text).filter (fun x => pyStartsWith "status=" x) with
  | [] => some 200
  | x :: _ => pyInt ((pySplit '=' x).getD 1 "")

/-- Insert into an ascending-sorted list. -/
def insertSorted (x : ℚ) : List ℚ → List ℚ
  | [] => [x]
  | y :: ys => if x ≤ y then x :: y :: ys else y :: insertSorted x ys

/-- Ascending insertion sort. -/
def sortAsc (xs : List ℚ) : List ℚ :=
  xs.foldr insertSorted []

/-- Model of `numpy.percentile(xs, 95)` with the default linear
interpolation: the value at fractional rank `0.95 * (n - 1)` of the sorted
data, interpolating between the neighbouring order statistics. -/
def percentile95 (xs : List ℚ) : ℚ :=
  let sorted := sortAsc xs
  let n := sorted.length
  if n = 0 then 0
  else
    let pos : ℚ := 95 * ((n : ℚ) - 1) / 100
    let i : ℤ := ⌊pos⌋
    let lower := sorted.getD i.toNat 0
    let upper := sorted.getD (i.toNat + 1) lower
    lower + (pos - (i : ℚ)) * (upper - lower)

/-- The fine-tuning loop of the promotion branch: up to `n` optimizer
steps over the reference set.  A step may fail (torch training can raise);
the loop stops at the first failure with the weights reached so far, and
the failure propagates — mirroring an exception escaping the Python `for`
loop. -/
def retrainLoop {W E : Type} (step : W → List E → Except String W) :
    Nat → W → List E → W × Option String
  | 0, w, _ => (w, none)
  | Nat.succ n, w, ns =>
    match step w ns with
    | .ok w1 => retrainLoop step n w1 ns
    | .error e => (w, some e)

/-- The adaptive state machine of
`app/services/anomalyDetectorManager.py::handle_incoming_log`.  `embed`
models `get_embedding`, `detectErr` models `detect` (the autoencoder
reconstruction error under given weights), and `step` one optimizer step
of the fine-tuning loop.  The returned state is the post-call state of the
manager object (Python mutates it in place, so mutations made before a
failure survive it); the `Except` value is the returned dictionary or the
propagated exception. -/
def handleIncomingLog {W E : Type} (embed : String → E) (detectErr : W → E → ℚ)
    (step : W → List E → Except String W) (text : String)
    (st : ManagerState W E) : ManagerState W E × Except String HandleResult :=
  if st.aeLoaded = false then
    (st, .error "Model not loaded.")
  else
    let endpoint := parseEndpoint text
    match parseStatus text with
    | none => (st, .error "invalid literal for int() with base 10")
    | some status =>
      let emb := embed text
      let err := detectErr st.weights emb
      if endpoint ∈ st.dynamicKnownEndpoints then
        (st, .ok { log := text, reconError := err,
                   decision := if err ≤ st.threshold then "normal" else "anomaly",
                   status := "known_endpoint" })
      else if status = 200 then
        let buf := st.newEndpointBuffer endpoint ++ [emb]
        if 50 ≤ buf.length then
          let known1 := endpoint :: st.dynamicKnownEndpoints
          let normals1 := st.normals ++ buf
          match retrainLoop step 5 st.weights normals1 with
          | (w1, some e) =>
            ({ st with dynamicKnownEndpoints := known1, normals := normals1,
                       weights := w1,
                       newEndpointBuffer := upd st.newEndpointBuffer endpoint buf },
             .error e)
          | (w1, none) =>
            let errs := normals1.map (detectErr w1)
            let threshold1 := percentile95 errs
            ({ st with dynamicKnownEndpoints := known1, normals := normals1,
                       weights := w1, threshold := threshold1,
                       newEndpointBuffer := upd st.newEndpointBuffer endpoint [] },
             .ok { log := text, reconError := err, decision := "normal",
                   status := "endpoint_promoted_and_model_retrained" })
        else
          ({ st with newEndpointBuffer := upd st.newEndpointBuffer endpoint buf },
           .ok { log := text, reconError := err, decision := "normal",
                 status := "endpoint_buffered (" ++ toString buf.length ++ "/50)" })
      else
        (st, .ok { log := text, reconError := err, decision := "anomaly",
                   status := "unknown_endpoint_error" })

/-- The fixed severity constant the aggregation endpoint assigns to each
statistical detector type. -/
def severity (t : String) : ℚ :=
  if t = "INCREASED_REQUEST_RATE" then 0.9
  else if t = "REPETITIVE_REQUEST" then 0.95
  else if t = "COLLECTIVE_LATENCY_SPIKE" then 0.85
  else if t = "INCREASED_CLIENT_ERROR_RATE" then 0.9
  else if t = "INCREASED_SERVER_ERROR_RATE" then 0.98
  else 0

/-- Raise a running score to the severity constant of one anomaly. -/
def sevFold (acc : ℚ) (a : DetectedAnomaly) : ℚ :=
  max acc (severity a.type)

/-- The statistical-detector findings of a report: every anomaly except
the reconstruction-model one (whose contribution to the fused score is the
reconstruction score itself, not a fixed constant). -/
def filteredStatAnomalies (l : List DetectedAnomaly) : List DetectedAnomaly :=
  l.filter (fun a => a.type != "LATENCY_SPIKE_OR_NEW_SCHEMA")

/-- The fused score the specification prescribes: the maximum of the
reconstruction score and the severity constants of every fired statistical
detector, capped at 1.0. -/
def fusedScoreSpec (recon : ℚ) (l : List DetectedAnomaly) : ℚ :=
  min 1 ((filteredStatAnomalies l).foldl sevFold recon)

/-! ### Basic facts about the reconstruction scorer -/

/-- The reconstruction scorer only returns 0.1, 0.85, or the latency-derived
value above 0.9. -/
lemma reconError_cases (r : AnomalyRequest) (s : Store) :
    (getAutoEncoderReconstructionError r s).1 = 0.1 ∨
    (getAutoEncoderReconstructionError r s).1 = 0.85 ∨
    (50 < r.responseTime ∧
      (getAutoEncoderReconstructionError r s).1 = 0.9 + (r.responseTime - 50) / 100) := by
  simp only [getAutoEncoderReconstructionError]
  split_ifs with h1 h2 <;> simp_all

/-- Every reconstruction score is at least 0.1. -/
lemma reconError_ge (r : AnomalyRequest) (s : Store) :
    (0.1 : ℚ) ≤ (getAutoEncoderReconstructionError r s).1 := by
  rcases reconError_cases r s with h | h | ⟨hrt, h⟩ <;> rw [h]
  · norm_num
  · have : (0 : ℚ) < (r.responseTime - 50) / 100 := by
      apply div_pos <;> linarith
    linarith

/-- A reconstruction score at most 0.8 is exactly 0.1. -/
lemma reconError_le_08 (r : AnomalyRequest) (s : Store)
    (h : ¬ (0.8 : ℚ) < (getAutoEncoderReconstructionError r s).1) :
    (getAutoEncoderReconstructionError r s).1 = 0.1 := by
  rcases reconError_cases r s with hc | hc | ⟨hrt, hc⟩
  · exact hc
  · rw [hc] at h; norm_num at h
  · exfalso
    have : (0 : ℚ) < (r.responseTime - 50) / 100 := by
      apply div_pos <;> linarith
    rw [hc] at h
    apply h
    linarith

/-! ### Shapes of the statistical detector results -/

/-- The rate detector returns nothing or one anomaly of its fixed type. -/
lemma checkSuddenSpikes_shape (r : AnomalyRequest) (s : Store) :
    (checkSuddenSpikesInRequests r s).1 = none ∨
    ∃ m, (checkSuddenSpikesInRequests r s).1 = some ⟨"INCREASED_REQUEST_RATE", m⟩ := by
  simp only [checkSuddenSpikesInRequests]
  split_ifs <;> simp

/-- The repetitive detector returns nothing or one anomaly of its fixed
type. -/
lemma checkRepetitive_shape (r : AnomalyRequest) (s : Store) :
    (checkRepetitiveRequestsByUsers r s).1 = none ∨
    ∃ m, (checkRepetitiveRequestsByUsers r s).1 = some ⟨"REPETITIVE_REQUEST", m⟩ := by
  simp only [checkRepetitiveRequestsByUsers]
  split_ifs <;> simp

/-- The latency detector returns nothing or one anomaly of its fixed
type. -/
lemma checkDelay_shape (r : AnomalyRequest) (s : Store) :
    (checkDelayResponseSpikes r s).1 = none ∨
    ∃ m, (checkDelayResponseSpikes r s).1 = some ⟨"COLLECTIVE_LATENCY_SPIKE", m⟩ := by
  simp only [checkDelayResponseSpikes]
  split_ifs <;> simp

/-- The error-rate detector returns nothing, one client-error anomaly, or
one server-error anomaly: since a status class is unique, both counters
never fire on the same call. -/
lemma checkErrorRateSpike_shape (r : AnomalyRequest) (s : Store) :
    (checkErrorRateSpike r s).1 = [] ∨
    (∃ m, (checkErrorRateSpike r s).1 = [⟨"INCREASED_CLIENT_ERROR_RATE", m⟩]) ∨
    (∃ m, (checkErrorRateSpike r s).1 = [⟨"INCREASED_SERVER_ERROR_RATE", m⟩]) := by
  simp only [checkErrorRateSpike]
  split_ifs <;> simp_all <;> omega

/-- C5: the rate detector fires exactly when the post-increment
per-endpoint per-minute counter strictly exceeds the threshold of 10 — it
never fires at or below the threshold and always fires strictly above it —
and the call increments exactly that counter by one. -/
theorem rateDetector_fires_iff_above_threshold (r : AnomalyRequest) (s : Store) :
    ((checkSuddenSpikesInRequests r s).1.isSome ↔
      10 < s.counters ("rate:" ++ r.endpoint ++ ":" ++ r.timestamp.minute) + 1)
    ∧ (checkSuddenSpikesInRequests r s).2.counters
        ("rate:" ++ r.endpoint ++ ":" ++ r.timestamp.minute)
        = s.counters ("rate:" ++ r.endpoint ++ ":" ++ r.timestamp.minute) + 1 := by
  constructor
  · simp only [checkSuddenSpikesInRequests]
    split_ifs with h <;> simp [h]
  · simp only [checkSuddenSpikesInRequests]
    split_ifs <;> simp [upd]

/-- C6: the latency drift detector stores the trimmed sliding window of the
last 100 response times, returns no anomaly while the window is still
filling (in particular on the first 99 calls to a cold endpoint), and once
the window holds 100 entries fires exactly when the arithmetic mean of
those 100 entries strictly exceeds 150 ms. -/
theorem latencyDetector_window (r : AnomalyRequest) (s : Store) :
    (checkDelayResponseSpikes r s).2.lists ("latency_window:" ++ r.endpoint)
        = (r.responseTime :: s.lists ("latency_window:" ++ r.endpoint)).take 100
    ∧ ((s.lists ("latency_window:" ++ r.endpoint)).length + 1 < 100 →
        (checkDelayResponseSpikes r s).1 = none)
    ∧ (99 ≤ (s.lists ("latency_window:" ++ r.endpoint)).length →
        ((r.responseTime :: s.lists ("latency_window:" ++ r.endpoint)).take 100).length = 100
        ∧ ((checkDelayResponseSpikes r s).1.isSome ↔
            150 < ((r.responseTime :: s.lists ("latency_window:" ++ r.endpoint)).take 100).foldl
                    (· + ·) 0 / 100)) := by
  refine ⟨?_, ?_, ?_⟩
  · simp only [checkDelayResponseSpikes]
    split_ifs <;> simp [upd]
  · intro h
    simp only [checkDelayResponseSpikes]
    split_ifs with hc hf
    · rfl
    all_goals
      exfalso
      apply hc
      simp only [List.length_take, List.length_cons]
      omega
  · intro h
    have hlen :
        ((r.responseTime :: s.lists ("latency_window:" ++ r.endpoint)).take 100).length = 100 := by
      simp only [List.length_take, List.length_cons]
      omega
    have hcast :
        ((((r.responseTime :: s.lists ("latency_window:" ++ r.endpoint)).take 100).length : ℚ))
          = (100 : ℚ) := by
      rw [hlen]
      norm_num
    refine ⟨hlen, ?_⟩
    simp only [checkDelayResponseSpikes]
    split_ifs with hc hf
    · exact absurd hlen (by omega)
    · rw [hcast] at hf
      simpa using hf
    · rw [hcast] at hf
      simpa using hf

/-! ### The aggregation endpoint -/

lemma pyIn_client_err : pyIn "SERVER" "INCREASED_CLIENT_ERROR_RATE" = false := by decide

lemma pyIn_server_err : pyIn "SERVER" "INCREASED_SERVER_ERROR_RATE" = true := by decide

/-- Folding severities into a running score never lowers it. -/
lemma foldl_sevFold_init_le (l : List DetectedAnomaly) (a : ℚ) :
    a ≤ l.foldl sevFold a := by
  induction l generalizing a with
  | nil => simp
  | cons x xs ih =>
    exact le_trans (le_max_left a (severity x.type)) (ih (sevFold a x))

set_option maxHeartbeats 3200000 in
/-- Case analysis of the fusion logic: the reported score is the fused
score the specification prescribes, the anomaly flag reflects
non-emptiness, and an empty report forces a sub-threshold reconstruction
score. -/
lemma fuseReport_master (r : AnomalyRequest) (recon : ℚ)
    (rate rep lat : Option DetectedAnomaly) (errs : List DetectedAnomaly)
    (hrate : rate = none ∨ ∃ m, rate = some ⟨"INCREASED_REQUEST_RATE", m⟩)
    (hrep : rep = none ∨ ∃ m, rep = some ⟨"REPETITIVE_REQUEST", m⟩)
    (hlat : lat = none ∨ ∃ m, lat = some ⟨"COLLECTIVE_LATENCY_SPIKE", m⟩)
    (herrs : errs = [] ∨ (∃ m, errs = [⟨"INCREASED_CLIENT_ERROR_RATE", m⟩]) ∨
      (∃ m, errs = [⟨"INCREASED_SERVER_ERROR_RATE", m⟩])) :
    (fuseReport r recon rate rep lat errs).anomalyScore
        = fusedScoreSpec recon (fuseReport r recon rate rep lat errs).detectedAnomalies
    ∧ ((fuseReport r recon rate rep lat errs).isAnomaly = true ↔
        (fuseReport r recon rate rep lat errs).detectedAnomalies ≠ [])
    ∧ ((fuseReport r recon rate rep lat errs).detectedAnomalies = [] →
        ¬ (0.8 : ℚ) < recon ∧
        (fuseReport r recon rate rep lat errs).anomalyScore = min 1 recon) := by
  by_cases h0 : (0.8 : ℚ) < recon <;>
    rcases hrate with h1 | ⟨m1, h1⟩ <;>
    rcases hrep with h2 | ⟨m2, h2⟩ <;>
    rcases hlat with h3 | ⟨m3, h3⟩ <;>
    rcases herrs with h4 | ⟨m4, h4⟩ | ⟨m4, h4⟩ <;>
    subst h1 <;> subst h2 <;> subst h3 <;> subst h4 <;>
    simp [fuseReport, h0, fusedScoreSpec, filteredStatAnomalies,
      sevFold, severity, pyIn_client_err, pyIn_server_err]

/-- The report of the predict endpoint is the fusion of the five detector
results computed on the successively threaded stores. -/
lemma predictAnomaly_fst (r : AnomalyRequest) (s : Store) :
    (predictAnomaly r s).1
      = fuseReport r (getAutoEncoderReconstructionError r s).1
          (checkSuddenSpikesInRequests r (getAutoEncoderReconstructionError r s).2).1
          (checkRepetitiveRequestsByUsers r
            (checkSuddenSpikesInRequests r (getAutoEncoderReconstructionError r s).2).2).1
          (checkDelayResponseSpikes r
            (checkRepetitiveRequestsByUsers r
              (checkSuddenSpikesInRequests r (getAutoEncoderReconstructionError r s).2).2).2).1
          (checkErrorRateSpike r
            (checkDelayResponseSpikes r
              (checkRepetitiveRequestsByUsers r
                (checkSuddenSpikesInRequests r
                  (getAutoEncoderReconstructionError r s).2).2).2).2).1 := rfl

/-- Instantiation of the fusion case analysis at the actual detector
results of a predict call. -/
lemma predictAnomaly_master (r : AnomalyRequest) (s : Store) :
    (predictAnomaly r s).1.anomalyScore
        = fusedScoreSpec (getAutoEncoderReconstructionError r s).1
            (predictAnomaly r s).1.detectedAnomalies
    ∧ ((predictAnomaly r s).1.isAnomaly = true ↔
        (predictAnomaly r s).1.detectedAnomalies ≠ [])
    ∧ ((predictAnomaly r s).1.detectedAnomalies = [] →
        ¬ (0.8 : ℚ) < (getAutoEncoderReconstructionError r s).1 ∧
        (predictAnomaly r s).1.anomalyScore
          = min 1 (getAutoEncoderReconstructionError r s).1) := by
  rw [predictAnomaly_fst]
  exact fuseReport_master r _ _ _ _ _
    (checkSuddenSpikes_shape r _) (checkRepetitive_shape r _)
    (checkDelay_shape r _) (checkErrorRateSpike_shape r _)

/-- The fused score is bounded below by the reconstruction score. -/
lemma fusedScoreSpec_ge (recon : ℚ) (l : List DetectedAnomaly) (h : recon ≤ 1) :
    recon ≤ fusedScoreSpec recon l := by
  unfold fusedScoreSpec
  exact le_min h (foldl_sevFold_init_le _ _)

/-- C1: for every processed event, the reported anomaly score equals the
minimum of 1.0 and the maximum of the reconstruction score and the fixed
severity constants of every fired statistical detector; the score lies in
the interval from 0 to 1; and the anomaly flag is set exactly when the
anomaly sequence is non-empty. -/
theorem predictAnomaly_score_fusion (r : AnomalyRequest) (s : Store) :
    (predictAnomaly r s).1.anomalyScore
        = fusedScoreSpec (getAutoEncoderReconstructionError r s).1
            (predictAnomaly r s).1.detectedAnomalies
    ∧ 0 ≤ (predictAnomaly r s).1.anomalyScore
    ∧ (predictAnomaly r s).1.anomalyScore ≤ 1
    ∧ ((predictAnomaly r s).1.isAnomaly = true ↔
        (predictAnomaly r s).1.detectedAnomalies ≠ []) := by
  obtain ⟨hs, hflag, -⟩ := predictAnomaly_master r s
  refine ⟨hs, ?_, ?_, hflag⟩
  · rw [hs]
    have h1 := reconError_ge r s
    have h2 := foldl_sevFold_init_le
      (filteredStatAnomalies (predictAnomaly r s).1.detectedAnomalies)
      (getAutoEncoderReconstructionError r s).1
    unfold fusedScoreSpec
    exact le_min (by norm_num) (by linarith)
  · rw [hs]
    unfold fusedScoreSpec
    exact min_le_left _ _

/-- C10: every reported anomaly score is at least 0.1 (in particular never
0), and a report with the anomaly flag unset carries the score 0.1
exactly, the sole sub-threshold output of the reconstruction scorer. -/
theorem predictAnomaly_score_floor (r : AnomalyRequest) (s : Store) :
    (0.1 : ℚ) ≤ (predictAnomaly r s).1.anomalyScore
    ∧ (predictAnomaly r s).1.anomalyScore ≠ 0
    ∧ ((predictAnomaly r s).1.isAnomaly = false →
        (predictAnomaly r s).1.anomalyScore = 0.1) := by
  obtain ⟨hs, hflag, hempty⟩ := predictAnomaly_master r s
  have hfloor : (0.1 : ℚ) ≤ (predictAnomaly r s).1.anomalyScore := by
    rw [hs]
    have h1 := reconError_ge r s
    have h2 := foldl_sevFold_init_le
      (filteredStatAnomalies (predictAnomaly r s).1.detectedAnomalies)
      (getAutoEncoderReconstructionError r s).1
    unfold fusedScoreSpec
    exact le_min (by norm_num) (by linarith)
  refine ⟨hfloor, by intro h; rw [h] at hfloor; norm_num at hfloor, ?_⟩
  intro hfalse
  have hnil : (predictAnomaly r s).1.detectedAnomalies = [] := by
    by_contra hne
    have := hflag.mpr hne
    rw [hfalse] at this
    exact Bool.false_ne_true this
  obtain ⟨hrec, hsc⟩ := hempty hnil
  rw [hsc, reconError_le_08 r s hrec]
  norm_num

/-- Witness input for the score-floor theorem. -/
def w10req : AnomalyRequest :=
  { requestId := "w10", timestamp := ⟨0, "1970-01-01T00:00", "0.0"⟩,
    endpoint := "/w", httpMethod := "GET", statusCode := 200,
    responseTime := 10, authCompanyId := "c", schemaHash := "h" }

/-- Concrete instantiation of the score-floor theorem. -/
theorem predictAnomaly_score_floor_witness :
    (0.1 : ℚ) ≤ (predictAnomaly w10req emptyStore).1.anomalyScore
    ∧ (predictAnomaly w10req emptyStore).1.anomalyScore ≠ 0
    ∧ ((predictAnomaly w10req emptyStore).1.isAnomaly = false →
        (predictAnomaly w10req emptyStore).1.anomalyScore = 0.1) :=
  predictAnomaly_score_floor w10req emptyStore

/-! ### Statefulness of the reconstruction scorer -/

/-- Input exhibiting the statefulness of the reconstruction scorer: a fast
call carrying a schema hash the store has not seen. -/
def c7req : AnomalyRequest :=
  { requestId := "req-1", timestamp := ⟨100, "1970-01-01T00:01", "100.0"⟩,
    endpoint := "/users", httpMethod := "GET", statusCode := 200,
    responseTime := 20, authCompanyId := "acme", schemaHash := "h1" }

/-- Counterexample to the claim that reconstruction scoring mutates no
store state and is deterministic across runs on the same input: on a fast
call with an unseen schema hash the scorer writes the hash into the
schema set and the two successive runs return 0.85 and then 0.1. -/
theorem reconScorer_not_stateless :
    (getAutoEncoderReconstructionError c7req emptyStore).1 = 0.85
    ∧ (getAutoEncoderReconstructionError c7req
        (getAutoEncoderReconstructionError c7req emptyStore).2).1 = 0.1
    ∧ (getAutoEncoderReconstructionError c7req
        (getAutoEncoderReconstructionError c7req emptyStore).2).1
        ≠ (getAutoEncoderReconstructionError c7req emptyStore).1
    ∧ (getAutoEncoderReconstructionError c7req emptyStore).2.sets "schema_hashes:/users"
        = ["h1"]
    ∧ emptyStore.sets "schema_hashes:/users" = [] := by
  norm_num [getAutoEncoderReconstructionError, emptyStore, upd, c7req]
  all_goals decide

/-- Amended C7: the scorer is stable from the second run onward — a repeat
of the same input leaves the store as the first run left it — and the two
runs agree on the score exactly when the first run did not take the
unseen-schema branch (a fast call with an unseen schema hash scores 0.85
and then 0.1). -/
theorem reconScorer_idempotent_after_first (r : AnomalyRequest) (s : Store) :
    (getAutoEncoderReconstructionError r
        (getAutoEncoderReconstructionError r s).2).2
      = (getAutoEncoderReconstructionError r s).2
    ∧ ((getAutoEncoderReconstructionError r
          (getAutoEncoderReconstructionError r s).2).1
        = (getAutoEncoderReconstructionError r s).1
      ↔ ¬ (r.responseTime ≤ 50
            ∧ r.schemaHash ∉ s.sets ("schema_hashes:" ++ r.endpoint))) := by
  simp only [getAutoEncoderReconstructionError]
  split_ifs with h1 h2 <;> simp_all [upd] <;> norm_num

/-! ### Which counters each detector touches -/

/-- The reconstruction scorer never touches a counter. -/
lemma getAuto_counters (r : AnomalyRequest) (s : Store) :
    (getAutoEncoderReconstructionError r s).2.counters = s.counters := by
  simp only [getAutoEncoderReconstructionError]
  split_ifs <;> rfl

/-- The repetitive detector never touches a counter. -/
lemma checkRep_counters (r : AnomalyRequest) (s : Store) :
    (checkRepetitiveRequestsByUsers r s).2.counters = s.counters := by
  simp only [checkRepetitiveRequestsByUsers]

/-- The latency detector never touches a counter. -/
lemma checkDelay_counters (r : AnomalyRequest) (s : Store) :
    (checkDelayResponseSpikes r s).2.counters = s.counters := by
  simp only [checkDelayResponseSpikes]
  split_ifs <;> rfl

/-- The rate detector increments its own per-endpoint per-minute key. -/
lemma checkSudden_counters_at (r : AnomalyRequest) (s : Store) :
    (checkSuddenSpikesInRequests r s).2.counters
        ("rate:" ++ r.endpoint ++ ":" ++ r.timestamp.minute)
      = s.counters ("rate:" ++ r.endpoint ++ ":" ++ r.timestamp.minute) + 1 := by
  simp only [checkSuddenSpikesInRequests]
  split_ifs <;> simp [upd]

/-- A rate key never collides with a client-error key. -/
lemma rateKey_ne_clientKey (e m e2 m2 : String) :
    ("rate:" ++ e ++ ":" ++ m) ≠ "client_error_rate:" ++ e2 ++ ":" ++ m2 := by
  intro h
  have hd := congrArg String.data h
  simp [String.data_append] at hd

/-- A rate key never collides with a server-error key. -/
lemma rateKey_ne_serverKey (e m e2 m2 : String) :
    ("rate:" ++ e ++ ":" ++ m) ≠ "server_error_rate:" ++ e2 ++ ":" ++ m2 := by
  intro h
  have hd := congrArg String.data h
  simp [String.data_append] at hd

/-- The error-rate detector leaves every rate-detector counter alone. -/
lemma checkError_preserves_rate_counter (r : AnomalyRequest) (s : Store) (e m : String) :
    (checkErrorRateSpike r s).2.counters ("rate:" ++ e ++ ":" ++ m)
      = s.counters ("rate:" ++ e ++ ":" ++ m) := by
  simp only [checkErrorRateSpike]
  split_ifs <;> simp [upd, rateKey_ne_clientKey, rateKey_ne_serverKey]

/-- The final store of a predict call is the store threaded through the
five detectors. -/
lemma predictAnomaly_snd (r : AnomalyRequest) (s : Store) :
    (predictAnomaly r s).2
      = (checkErrorRateSpike r
          (checkDelayResponseSpikes r
            (checkRepetitiveRequestsByUsers r
              (checkSuddenSpikesInRequests r
                (getAutoEncoderReconstructionError r s).2).2).2).2).2 := rfl

/-- Malformed-value event: every field coerces to its declared type, but
the response time is negative and the status code is outside the range
100 to 599. -/
def c8raw : RawEvent :=
  { requestId := "bad-1", timestampParsed := some ⟨0, "1970-01-01T00:00", "0.0"⟩,
    endpoint := "/pay", httpMethod := "POST", statusCodeParsed := some 999,
    responseTimeParsed := some (-5), authCompanyId := "c1", schemaHash := "s1" }

/-- The validated request the malformed-value event produces. -/
def c8req : AnomalyRequest :=
  { requestId := "bad-1", timestamp := ⟨0, "1970-01-01T00:00", "0.0"⟩,
    endpoint := "/pay", httpMethod := "POST", statusCode := 999,
    responseTime := -5, authCompanyId := "c1", schemaHash := "s1" }

/-- Counterexample to the claim that an event with a negative response
time or an out-of-range status code is rejected before any detector runs:
this event passes validation and the predict call mutates the rate-window
counter for it. -/
theorem validation_accepts_malformed_values :
    validateRequest c8raw = some c8req
    ∧ c8req.responseTime = -5
    ∧ c8req.statusCode = 999
    ∧ (predictAnomaly c8req emptyStore).2.counters "rate:/pay:1970-01-01T00:00" = 1
    ∧ emptyStore.counters "rate:/pay:1970-01-01T00:00" = 0 := by
  refine ⟨rfl, rfl, rfl, ?_, rfl⟩
  have hkey : "rate:/pay:1970-01-01T00:00"
      = "rate:" ++ c8req.endpoint ++ ":" ++ c8req.timestamp.minute := by decide
  rw [hkey, predictAnomaly_snd, checkError_preserves_rate_counter,
    checkDelay_counters, checkRep_counters, checkSudden_counters_at, getAuto_counters]
  rfl

/-- Amended C8: pydantic validation of the request model is type-level
only — an event is rejected exactly when a typed field (in particular the
timestamp) fails to coerce, whatever the field values are — and every
validated event reaches the detectors: each predict call increments the
rate-window counter of its endpoint, negative response times and
out-of-range status codes included. -/
theorem validation_type_level_only :
    (∀ e : RawEvent, (validateRequest e).isSome ↔
        e.timestampParsed.isSome ∧ e.statusCodeParsed.isSome ∧ e.responseTimeParsed.isSome)
    ∧ ∀ (r : AnomalyRequest) (s : Store),
        (predictAnomaly r s).2.counters ("rate:" ++ r.endpoint ++ ":" ++ r.timestamp.minute)
          = s.counters ("rate:" ++ r.endpoint ++ ":" ++ r.timestamp.minute) + 1 := by
  constructor
  · intro e
    unfold validateRequest
    rcases e with ⟨_, ts, _, _, sc, rt, _, _⟩
    cases ts <;> cases sc <;> cases rt <;> simp
  · intro r s
    rw [predictAnomaly_snd, checkError_preserves_rate_counter,
      checkDelay_counters, checkRep_counters, checkSudden_counters_at, getAuto_counters]

/-! ### The adaptation state machine -/

/-- When every optimizer step succeeds, the fine-tuning loop performs
exactly `n` steps. -/
lemma retrainLoop_ok {W E : Type} (stepF : W → List E → W) (n : Nat) (w : W) (ns : List E) :
    retrainLoop (fun a b => Except.ok (stepF a b)) n w ns
      = ((fun a => stepF a ns)^[n] w, none) := by
  induction n generalizing w with
  | zero => rfl
  | succ k ih => simp [retrainLoop, ih, Function.iterate_succ_apply]

/-- A failure of the first optimizer step aborts the five-step loop at
once. -/
lemma retrainLoop_five_fail {W E : Type} (step : W → List E → Except String W)
    (w : W) (ns : List E) (msg : String) (h : step w ns = .error msg) :
    retrainLoop step 5 w ns = (w, some msg) := by
  have hu : retrainLoop step 5 w ns
      = match step w ns with
        | .ok w1 => retrainLoop step 4 w1 ns
        | .error e => (w, some e) := rfl
  rw [hu, h]

/-- C2: a successful call that fills an unknown endpoint's buffer to the
promotion size 50 promotes the endpoint to the known set, merges the
buffered embeddings into the global normal-reference set, runs exactly 5
optimizer steps over the updated reference set, recomputes the decision
threshold as the 95th percentile of reconstruction error over that set
under the retrained weights, clears the endpoint's buffer, and reports the
promotion. -/
theorem handleIncomingLog_promotion {W E : Type} (embed : String → E)
    (detectErr : W → E → ℚ) (stepF : W → List E → W) (text : String)
    (st : ManagerState W E) (e : String)
    (hae : st.aeLoaded = true) (hep : parseEndpoint text = e)
    (hst : parseStatus text = some 200) (hk : e ∉ st.dynamicKnownEndpoints)
    (hb : (st.newEndpointBuffer e).length = 49) :
    (handleIncomingLog embed detectErr (fun a b => Except.ok (stepF a b)) text st).1.dynamicKnownEndpoints
        = e :: st.dynamicKnownEndpoints
    ∧ (handleIncomingLog embed detectErr (fun a b => Except.ok (stepF a b)) text st).1.normals
        = st.normals ++ (st.newEndpointBuffer e ++ [embed text])
    ∧ (handleIncomingLog embed detectErr (fun a b => Except.ok (stepF a b)) text st).1.weights
        = (fun w => stepF w (st.normals ++ (st.newEndpointBuffer e ++ [embed text])))^[5] st.weights
    ∧ (handleIncomingLog embed detectErr (fun a b => Except.ok (stepF a b)) text st).1.threshold
        = percentile95 ((st.normals ++ (st.newEndpointBuffer e ++ [embed text])).map
            (detectErr ((fun w => stepF w
              (st.normals ++ (st.newEndpointBuffer e ++ [embed text])))^[5] st.weights)))
    ∧ (handleIncomingLog embed detectErr (fun a b => Except.ok (stepF a b)) text st).1.newEndpointBuffer e
        = []
    ∧ (handleIncomingLog embed detectErr (fun a b => Except.ok (stepF a b)) text st).2
        = .ok { log := text, reconError := detectErr st.weights (embed text),
                decision := "normal", status := "endpoint_promoted_and_model_retrained" } := by
  subst hep
  simp [handleIncomingLog, hae, hst, hk, hb, retrainLoop_ok, upd]

/-- C3: an endpoint already in the known set stays known on every
subsequent call, its buffer is never touched again, and a call targeting
it leaves the whole manager state unchanged (no re-buffering, no
re-promotion, no retraining). -/
theorem handleIncomingLog_known_stable {W E : Type} (embed : String → E)
    (detectErr : W → E → ℚ) (step : W → List E → Except String W)
    (text : String) (st : ManagerState W E) (e : String)
    (he : e ∈ st.dynamicKnownEndpoints) :
    e ∈ (handleIncomingLog embed detectErr step text st).1.dynamicKnownEndpoints
    ∧ (handleIncomingLog embed detectErr step text st).1.newEndpointBuffer e
        = st.newEndpointBuffer e
    ∧ (parseEndpoint text = e → (handleIncomingLog embed detectErr step text st).1 = st) := by
  by_cases hae : st.aeLoaded = false
  · simp [handleIncomingLog, hae, he]
  · cases hps : parseStatus text with
    | none => simp [handleIncomingLog, hae, hps, he]
    | some code =>
      by_cases hk : parseEndpoint text ∈ st.dynamicKnownEndpoints
      · simp [handleIncomingLog, hae, hps, hk, he]
      · have hne : parseEndpoint text ≠ e := fun h => hk (h ▸ he)
        by_cases hc : code = 200
        · by_cases hbl : 49 ≤ (st.newEndpointBuffer (parseEndpoint text)).length
          · rcases hr : retrainLoop step 5 st.weights
              (st.normals ++ (st.newEndpointBuffer (parseEndpoint text) ++ [embed text]))
              with ⟨w1, so⟩
            cases so <;>
              simp [handleIncomingLog, hae, hps, hk, hc, hbl, hr, upd, hne, hne.symm, he]
          · simp [handleIncomingLog, hae, hps, hk, hc, hbl, upd, hne, hne.symm, he]
        · simp [handleIncomingLog, hae, hps, hk, hc, he]

/-- C9: when the fine-tuning pass of a promotion fails, the failure
propagates, but the endpoint has already been added to the known set, the
buffered embeddings have already been merged into the normal-reference
set, and the buffer still holds them — the prior adaptation state is not
restored (only the threshold and, with a first-step failure, the weights
keep their prior values). -/
theorem handleIncomingLog_retrainFailure_keeps_mutations {W E : Type}
    (embed : String → E) (detectErr : W → E → ℚ)
    (step : W → List E → Except String W) (text : String)
    (st : ManagerState W E) (e : String) (msg : String)
    (hae : st.aeLoaded = true) (hep : parseEndpoint text = e)
    (hst : parseStatus text = some 200) (hk : e ∉ st.dynamicKnownEndpoints)
    (hb : (st.newEndpointBuffer e).length = 49)
    (hfail : step st.weights (st.normals ++ (st.newEndpointBuffer e ++ [embed text]))
        = .error msg) :
    (handleIncomingLog embed detectErr step text st).2 = .error msg
    ∧ (handleIncomingLog embed detectErr step text st).1.dynamicKnownEndpoints
        = e :: st.dynamicKnownEndpoints
    ∧ (handleIncomingLog embed detectErr step text st).1.normals
        = st.normals ++ (st.newEndpointBuffer e ++ [embed text])
    ∧ (handleIncomingLog embed detectErr step text st).1.newEndpointBuffer e
        = st.newEndpointBuffer e ++ [embed text]
    ∧ (handleIncomingLog embed detectErr step text st).1.threshold = st.threshold
    ∧ (handleIncomingLog embed detectErr step text st).1.weights = st.weights := by
  subst hep
  simp [handleIncomingLog, hae, hst, hk, hb,
    retrainLoop_five_fail step st.weights _ msg hfail, upd]

/-! ### Cardinality of the repetitive-request sorted set -/

/-- Splitting two equal lists at their first colon: when neither left part
contains a colon, both parts agree. -/
lemma append_colon_inj {l1 l2 r1 r2 : List Char} (h1 : ':' ∉ l1) (h2 : ':' ∉ l2)
    (h : l1 ++ ':' :: r1 = l2 ++ ':' :: r2) : l1 = l2 ∧ r1 = r2 := by
  induction l1 generalizing l2 with
  | nil =>
    cases l2 with
    | nil => simpa using h
    | cons b bs =>
      simp only [List.nil_append, List.cons_append, List.cons.injEq] at h
      exact absurd (h.1 ▸ List.mem_cons_self b bs) h2
  | cons a as ih =>
    cases l2 with
    | nil =>
      simp only [List.nil_append, List.cons_append, List.cons.injEq] at h
      exact absurd (h.1.symm ▸ List.mem_cons_self a as) h1
    | cons b bs =>
      simp only [List.cons_append, List.cons.injEq] at h
      have hrec := ih (fun hm => h1 (List.mem_cons_of_mem a hm))
        (fun hm => h2 (List.mem_cons_of_mem b hm)) h.2
      exact ⟨by rw [h.1, hrec.1], hrec.2⟩

/-- Combining a colon-free prefix with a request id through a colon is
injective: two members agree only when both components agree. -/
lemma member_str_inj (a b c d : String) (h1 : ':' ∉ a.data) (h2 : ':' ∉ c.data)
    (h : a ++ ":" ++ b = c ++ ":" ++ d) : a = c ∧ b = d := by
  have hd := congrArg String.data h
  simp only [String.data_append] at hd
  have hd2 : a.data ++ ':' :: b.data = c.data ++ ':' :: d.data := by
    simpa using hd
  obtain ⟨hl, hr⟩ := append_colon_inj h1 h2 hd2
  exact ⟨String.ext hl, String.ext hr⟩

/-- Adding a fresh member to a sorted set prepends it to the member
list. -/
lemma zadd_fresh_fsts (zs : List (String × ℚ)) (m : String) (sc : ℚ)
    (hm : m ∉ zs.map Prod.fst) :
    (zadd zs m sc).map Prod.fst = m :: zs.map Prod.fst := by
  unfold zadd
  have hfilter : zs.filter (fun p => p.1 != m) = zs := by
    apply List.filter_eq_self.mpr
    intro x hx
    simp only [bne_iff_ne, ne_eq, decide_eq_true_eq]
    exact fun heq => hm (heq ▸ List.mem_map_of_mem Prod.fst hx)
  rw [hfilter, List.map_cons]

/-- Folding fresh, pairwise-distinct insertions into a sorted set yields a
member list that is a permutation of the inserted members followed by the
prior ones. -/
lemma foldl_zadd_fsts (items : List (String × ℚ)) (zs : List (String × ℚ))
    (h : (items.map Prod.fst ++ zs.map Prod.fst).Nodup) :
    ((items.foldl (fun z i => zadd z i.1 i.2) zs).map Prod.fst).Perm
      (items.map Prod.fst ++ zs.map Prod.fst) := by
  induction items generalizing zs with
  | nil => simp
  | cons i rest ih =>
    simp only [List.foldl_cons, List.map_cons, List.cons_append] at h ⊢
    obtain ⟨hhead, htail⟩ := List.nodup_cons.mp h
    have hm : i.1 ∉ zs.map Prod.fst := fun hmem =>
      hhead (List.mem_append.mpr (Or.inr hmem))
    have hstep := zadd_fresh_fsts zs i.1 i.2 hm
    have hperm : (rest.map Prod.fst ++ (zadd zs i.1 i.2).map Prod.fst).Perm
        (i.1 :: (rest.map Prod.fst ++ zs.map Prod.fst)) := by
      rw [hstep]
      exact List.perm_middle
    have hnodup : (rest.map Prod.fst ++ (zadd zs i.1 i.2).map Prod.fst).Nodup :=
      hperm.nodup_iff.mpr h
    exact (ih _ hnodup).trans hperm

/-- C4: inserting K calls with pairwise-distinct (timestamp, request id)
pairs into one (client, endpoint) sorted set — the member combining the
rendered timestamp with the request id through a colon, as the detector
does — yields a cardinality of exactly K before pruning, even when calls
share a timestamp (Python float rendering never contains a colon, which
the hypothesis records). -/
theorem repetitiveMember_distinct_count (calls : List AnomalyRequest)
    (hpairs : (calls.map (fun c => (c.timestamp.str, c.requestId))).Nodup)
    (hcolon : ∀ c ∈ calls, ':' ∉ c.timestamp.str.data) :
    zcard (calls.foldl
        (fun zs c => zadd zs (repetitiveMember c.timestamp c.requestId) c.timestamp.epoch)
        [])
      = calls.length := by
  have hmembers : (calls.map (fun c => repetitiveMember c.timestamp c.requestId)).Nodup := by
    have hcomp : (calls.map (fun c => repetitiveMember c.timestamp c.requestId))
        = (calls.map (fun c => (c.timestamp.str, c.requestId))).map
            (fun p => p.1 ++ ":" ++ p.2) := by
      simp [List.map_map, Function.comp_def, repetitiveMember]
    rw [hcomp]
    apply List.Nodup.map_on ?_ hpairs
    intro x hx y hy hxy
    obtain ⟨cx, hcx, hcxe⟩ := List.mem_map.mp hx
    obtain ⟨cy, hcy, hcye⟩ := List.mem_map.mp hy
    have hx1 : ':' ∉ x.1.data := by
      rw [← hcxe]
      exact hcolon cx hcx
    have hy1 : ':' ∉ y.1.data := by
      rw [← hcye]
      exact hcolon cy hcy
    obtain ⟨ha, hb⟩ := member_str_inj x.1 x.2 y.1 y.2 hx1 hy1 hxy
    exact Prod.ext ha hb
  have hfoldmap : calls.foldl
      (fun zs c => zadd zs (repetitiveMember c.timestamp c.requestId) c.timestamp.epoch) []
      = (calls.map (fun c => (repetitiveMember c.timestamp c.requestId, c.timestamp.epoch))).foldl
          (fun z i => zadd z i.1 i.2) [] := by
    rw [List.foldl_map]
  have hitems : ((calls.map
      (fun c => (repetitiveMember c.timestamp c.requestId, c.timestamp.epoch))).map Prod.fst
        ++ ([] : List (String × ℚ)).map Prod.fst).Nodup := by
    simpa [List.map_map, Function.comp_def] using hmembers
  have hperm := foldl_zadd_fsts
    (calls.map (fun c => (repetitiveMember c.timestamp c.requestId, c.timestamp.epoch)))
    [] hitems
  unfold zcard
  rw [hfoldmap]
  have hnodup : (((calls.map
      (fun c => (repetitiveMember c.timestamp c.requestId, c.timestamp.epoch))).foldl
        (fun z i => zadd z i.1 i.2) []).map Prod.fst).Nodup :=
    hperm.nodup_iff.mpr hitems
  rw [List.dedup_eq_self.mpr hnodup]
  have hlen := hperm.length_eq
  simpa using hlen

/-- Witness calls for the sorted-set cardinality theorem: three calls, the
first two sharing a rendered timestamp. -/
def c4calls : List AnomalyRequest :=
  [ { requestId := "r1", timestamp := ⟨100, "1970-01-01T00:01", "100.0"⟩,
      endpoint := "/e", httpMethod := "GET", statusCode := 200,
      responseTime := 10, authCompanyId := "c", schemaHash := "h" },
    { requestId := "r2", timestamp := ⟨100, "1970-01-01T00:01", "100.0"⟩,
      endpoint := "/e", httpMethod := "GET", statusCode := 200,
      responseTime := 10, authCompanyId := "c", schemaHash := "h" },
    { requestId := "r3", timestamp := ⟨101, "1970-01-01T00:01", "101.0"⟩,
      endpoint := "/e", httpMethod := "GET", statusCode := 200,
      responseTime := 10, authCompanyId := "c", schemaHash := "h" } ]

/-- Concrete instantiation of the cardinality theorem: the three witness
calls, two of which share a timestamp, count as exactly three members. -/
theorem repetitiveMember_distinct_count_witness :
    zcard (c4calls.foldl
        (fun zs c => zadd zs (repetitiveMember c.timestamp c.requestId) c.timestamp.epoch)
        [])
      = 3 :=
  repetitiveMember_distinct_count c4calls (by decide) (by decide)

/-! ### Concrete instantiations of the state-machine theorems -/

/-- Manager state one successful call away from promotion. -/
def c2state : ManagerState Nat ℚ :=
  { aeLoaded := true, dynamicKnownEndpoints := [], normals := [], weights := 0,
    threshold := 0,
    newEndpointBuffer := fun x => if x = "/api/users" then List.replicate 49 0 else [] }

/-- Concrete instantiation of the promotion theorem: the fiftieth
successful call promotes the endpoint, clears its buffer, and the
counting optimizer step runs exactly five times. -/
theorem handleIncomingLog_promotion_witness :
    (handleIncomingLog (fun _ => (0 : ℚ)) (fun (_ : Nat) (_ : ℚ) => (0 : ℚ))
        (fun a b => Except.ok ((fun w (_ : List ℚ) => w + 1) a b))
        "endpoint=/api/users status=200" c2state).1.dynamicKnownEndpoints = ["/api/users"]
    ∧ (handleIncomingLog (fun _ => (0 : ℚ)) (fun (_ : Nat) (_ : ℚ) => (0 : ℚ))
        (fun a b => Except.ok ((fun w (_ : List ℚ) => w + 1) a b))
        "endpoint=/api/users status=200" c2state).1.newEndpointBuffer "/api/users" = []
    ∧ (handleIncomingLog (fun _ => (0 : ℚ)) (fun (_ : Nat) (_ : ℚ) => (0 : ℚ))
        (fun a b => Except.ok ((fun w (_ : List ℚ) => w + 1) a b))
        "endpoint=/api/users status=200" c2state).1.weights = 5 := by
  have h := handleIncomingLog_promotion (W := Nat) (E := ℚ) (fun _ => (0 : ℚ))
    (fun _ _ => (0 : ℚ)) (fun w _ => w + 1) "endpoint=/api/users status=200" c2state
    "/api/users" rfl (by decide) (by decide) (by decide) (by decide)
  refine ⟨h.1, h.2.2.2.2.1, ?_⟩
  rw [h.2.2.1]
  rfl

/-- Manager state with one known endpoint. -/
def c3state : ManagerState Nat ℚ :=
  { aeLoaded := true, dynamicKnownEndpoints := ["/known"], normals := [], weights := 0,
    threshold := 0, newEndpointBuffer := fun _ => [] }

/-- Concrete instantiation of the known-endpoint stability theorem: a call
to the known endpoint leaves the manager state untouched. -/
theorem handleIncomingLog_known_stable_witness :
    (handleIncomingLog (fun _ => (0 : ℚ)) (fun (_ : Nat) (_ : ℚ) => (0 : ℚ))
        (fun a _ => Except.ok a) "endpoint=/known" c3state).1 = c3state :=
  (handleIncomingLog_known_stable (fun _ => (0 : ℚ)) (fun (_ : Nat) (_ : ℚ) => (0 : ℚ))
    (fun a _ => Except.ok a) "endpoint=/known" c3state "/known" (by decide)).2.2 (by decide)

/-- Manager state one successful call away from promotion, used with a
failing optimizer step. -/
def c9state : ManagerState Nat ℚ :=
  { aeLoaded := true, dynamicKnownEndpoints := [], normals := [], weights := 0,
    threshold := 0,
    newEndpointBuffer := fun x => if x = "/api/users" then List.replicate 49 0 else [] }

/-- Concrete instantiation of the retraining-failure theorem: the failure
propagates while the endpoint is already in the known set. -/
theorem handleIncomingLog_retrainFailure_witness :
    (handleIncomingLog (fun _ => (0 : ℚ)) (fun (_ : Nat) (_ : ℚ) => (0 : ℚ))
        (fun _ _ => Except.error "boom") "endpoint=/api/users status=200" c9state).2
      = Except.error "boom"
    ∧ "/api/users" ∈ (handleIncomingLog (fun _ => (0 : ℚ)) (fun (_ : Nat) (_ : ℚ) => (0 : ℚ))
        (fun _ _ => Except.error "boom") "endpoint=/api/users status=200"
        c9state).1.dynamicKnownEndpoints := by
  have h := handleIncomingLog_retrainFailure_keeps_mutations (W := Nat) (E := ℚ)
    (fun _ => (0 : ℚ)) (fun _ _ => (0 : ℚ)) (fun _ _ => Except.error "boom")
    "endpoint=/api/users status=200" c9state "/api/users" "boom"
    rfl (by decide) (by decide) (by decide) (by decide) rfl
  refine ⟨h.1, ?_⟩
  rw [h.2.1]
  exact List.mem_cons_self _ _

/-- Store whose latency window for the witness endpoint holds 99 slow
entries. -/
def c6store : Store :=
  { emptyStore with
    lists := fun k => if k = "latency_window:/w6" then List.replicate 99 200 else [] }

/-- Witness call for the latency-window theorem. -/
def c6req : AnomalyRequest :=
  { requestId := "w6", timestamp := ⟨0, "1970-01-01T00:00", "0.0"⟩,
    endpoint := "/w6", httpMethod := "GET", statusCode := 200,
    responseTime := 200, authCompanyId := "c", schemaHash := "h" }

/-- Concrete instantiation of the latency-window theorem: the hundredth
call fills the window and the detector evaluates the mean. -/
theorem latencyDetector_window_witness :
    ((c6req.responseTime :: c6store.lists ("latency_window:" ++ c6req.endpoint)).take 100).length
        = 100
    ∧ ((checkDelayResponseSpikes c6req c6store).1.isSome ↔
        150 < ((c6req.responseTime
            :: c6store.lists ("latency_window:" ++ c6req.endpoint)).take 100).foldl
          (· + ·) 0 / 100) :=
  (latencyDetector_window c6req c6store).2.2 (by decide)
